import Mathlib

/-!
# Verification of the PeruGo backend authentication flow

Shallow embedding of the two Express auth implementations of this repository
(`server.js` and `src/routes/auth.js`), of the Prisma seed script
(`prisma/seed.js`) and of the user/destination data model from the SQL
migration.  Request bodies are JSON values, so JavaScript truthiness and
dynamic typing (e.g. `password.length` on a non-string) are modelled
faithfully.  The bcrypt and jsonwebtoken libraries are modelled by
deterministic idealizations that preserve exactly the behaviour the handlers
depend on: a salted hash matches precisely the password it was derived from,
and `bcrypt.compare` / `bcrypt.hash` reject non-string arguments with an
`Illegal arguments` error, as bcryptjs does.
-/

/-- A JSON value as it appears in a request body field.  `undefined` stands
for an absent field (JavaScript `undefined`). -/
inductive JVal where
  | undefined
  | null
  | str (s : String)
  | num (n : Int)
  | bool (b : Bool)
  deriving DecidableEq, Repr

/-- JavaScript truthiness: `undefined`, `null`, `""`, `0` and `false` are
falsy, everything else in our value space is truthy. -/
def JVal.truthy : JVal → Bool
  | .undefined => false
  | .null => false
  | .str s => s ≠ ""
  | .num n => n ≠ 0
  | .bool b => b

/-- The JavaScript expression `password.length < 6` as the register handlers
evaluate it: on a string it compares the length; on a number or boolean
`.length` is `undefined` and `undefined < 6` is `false`.  (`null` and
`undefined` never reach this expression: they are falsy and are rejected by
the preceding missing-field check.) -/
def jsLengthLtSix : JVal → Bool
  | .str s => s.length < 6
  | _ => false

/-- A user row of the `User` table (migration `part_000`): `id` primary key,
`email` unique, `username` and `password` nullable. -/
structure User where
  id : String
  email : String
  username : Option String
  password : Option String
  deriving DecidableEq, Repr

/-- A model of a bcrypt hash with cost factor 12 of a string password.
Deterministic idealization of the salted hash: it matches exactly the
password it was derived from. -/
def bcryptHash (password : String) : String :=
  "bcrypt12$" ++ password

/-- Model of bcryptjs `bcrypt.hash(s, 12)` applied to a raw JSON value: the
library requires a string data argument and rejects the promise with an
`Illegal arguments` error otherwise. -/
def bcryptHashJS : JVal → Except String String
  | .str s => .ok (bcryptHash s)
  | _ => .error "Illegal arguments"

/-- Model of bcryptjs `bcrypt.compare(password, hash)`: both arguments must
be strings (a `null` stored hash, or a non-string password, rejects the
promise with an `Illegal arguments` error); otherwise the comparison
succeeds exactly on the matching password. -/
def bcryptCompareJS : JVal → Option String → Except String Bool
  | .str p, some h => .ok (h == bcryptHash p)
  | _, _ => .error "Illegal arguments"

/-- Model of a signed JWT as produced by `jwt.sign({userId, email}, secret,
expiresIn 24h)`: the payload carries the user id and the email value,
the signature binds the secret. -/
structure Token where
  userId : String
  email : JVal
  secret : String
  deriving DecidableEq, Repr

/-- `jwt.sign` on the payload `{ userId, email }`. -/
def jwtSign (userId : String) (email : JVal) (secret : String) : Token :=
  ⟨userId, email, secret⟩

/-- Decoding the token payload recovers the email it was signed over. -/
def jwtDecodeEmail (t : Token) : JVal :=
  t.email

/-- The request body of the auth routes after `const {email, password,
username} = req.body`.  `username` is kept as an optional string (absent or
a string), which is the only shape the claims exercise. -/
structure ReqBody where
  email : JVal
  password : JVal
  username : Option String := none
  deriving DecidableEq, Repr

/-- JavaScript `username || default` on an optional string: an absent or
empty username falls back to the default. -/
def jsOrDefault (username : Option String) (d : String) : String :=
  match username with
  | some s => if s = "" then d else s
  | none => d

/-- JavaScript `username || null` on an optional string, as stored by the
register handlers. -/
def jsOrNull (username : Option String) : Option String :=
  match username with
  | some s => if s = "" then none else some s
  | none => none

/-- `prisma.user.findUnique({ where: { email } })` over the user store: on a
string email it returns the first row with that email (the unique index
`User_email_key` guarantees at most one); a non-string email is a Prisma
validation error, which rejects the promise. -/
def findUnique (store : List User) : JVal → Except String (Option User)
  | .str e => .ok (store.find? (fun u => u.email == e))
  | _ => .error "PrismaClientValidationError"

/-- The `user` object of a success response, exactly as built in both
implementations: `{ id: user.id, email: user.email, username:
user.username }`. -/
def userJson (u : User) : List (String × JVal) :=
  [("id", .str u.id), ("email", .str u.email),
   ("username", match u.username with | some s => .str s | none => .null)]

/-- Result of a login request, one constructor per response the handlers can
produce. -/
inductive LoginRes where
  /-- 400 `Email y contraseña son requeridos` -/
  | missingFields
  /-- 200 simulation-mode success (`simulated: true`) -/
  | simSuccess (token : Token) (user : List (String × JVal))
  /-- 400 simulation-mode `Credenciales inválidas` -/
  | simInvalid
  /-- 400 `Usuario no encontrado` -/
  | notFound
  /-- 400 `Contraseña incorrecta` -/
  | wrongPassword
  /-- 500 `Error interno del servidor` (catch block) -/
  | dbError (details : String)
  /-- 200 `Login exitoso` -/
  | success (token : Token) (user : List (String × JVal))
  deriving DecidableEq, Repr

/-- HTTP status of a login response. -/
def loginStatus : LoginRes → Nat
  | .missingFields => 400
  | .simSuccess _ _ => 200
  | .simInvalid => 400
  | .notFound => 400
  | .wrongPassword => 400
  | .dbError _ => 500
  | .success _ _ => 200

/-- Result of a register request. -/
inductive RegisterRes where
  /-- 400 `Email y contraseña son requeridos` -/
  | missingFields
  /-- 400 `La contraseña debe tener al menos 6 caracteres` -/
  | shortPassword
  /-- 201 simulation-mode `Usuario registrado exitosamente (modo simulación)` -/
  | simCreated (token : Token) (user : List (String × JVal))
  /-- 400 `Ya existe un usuario con este email` -/
  | conflict
  /-- 500 `Error interno del servidor` (catch block) -/
  | dbError (details : String)
  /-- 201 `Usuario registrado exitosamente` -/
  | created (token : Token) (user : List (String × JVal))
  deriving DecidableEq, Repr

/-- HTTP status of a register response. -/
def registerStatus : RegisterRes → Nat
  | .missingFields => 400
  | .shortPassword => 400
  | .simCreated _ _ => 201
  | .conflict => 400
  | .dbError _ => 500
  | .created _ _ => 201

/-- Result of a recover request. -/
inductive RecoverRes where
  /-- 400 `Email es requerido` -/
  | missingEmail
  /-- 404 `Usuario no encontrado` (only the `auth.js` variant) -/
  | notFound
  /-- 200 confirmation payload echoing the email -/
  | sent (email : JVal)
  /-- 500 `Error interno del servidor` (catch block) -/
  | dbError (details : String)
  deriving DecidableEq, Repr

/-- HTTP status of a recover response. -/
def recoverStatus : RecoverRes → Nat
  | .missingEmail => 400
  | .notFound => 404
  | .sent _ => 200
  | .dbError _ => 500

/-- The database branch of `POST /auth/login`, shared verbatim (up to the
JWT secret) by `server.js` (lines 122–157) and `src/routes/auth.js`
(lines 55–90): find the user by email, compare the password against the
stored hash, sign a token over `{userId: user.id, email: user.email}`.
Returns the response together with the store, which no branch modifies. -/
def dbLogin (secret : String) (store : List User) (body : ReqBody) :
    LoginRes × List User :=
  match findUnique store body.email with
  | .error e => (.dbError e, store)
  | .ok none => (.notFound, store)
  | .ok (some user) =>
    match bcryptCompareJS body.password user.password with
    | .error e => (.dbError e, store)
    | .ok false => (.wrongPassword, store)
    | .ok true =>
      (.success (jwtSign user.id (.str user.email) secret) (userJson user), store)

/-- The simulation branch of `POST /auth/login` in `server.js` (lines
92–119), taken when `prisma` is `null`: the hardcoded credentials
`test@test.com` / `123456` succeed with a stub user, anything else is a 400.
`simSecret` is `process.env.JWT_SECRET` with its `test-secret` fallback. -/
def simLogin (simSecret : String) (body : ReqBody) : LoginRes :=
  if body.email = .str "test@test.com" ∧ body.password = .str "123456" then
    .simSuccess (jwtSign "test-user-id" body.email simSecret)
      [("id", .str "test-user-id"), ("email", body.email),
       ("username", .str "usuario_prueba")]
  else
    .simInvalid

/-- `POST /auth/login` of `server.js` (lines 82–158).  `prisma` is the store
when the Prisma client initialized and `none` otherwise; the handler
validates presence of both fields, then dispatches to the simulation branch
or the database branch. -/
def loginServer (secret simSecret : String) (prisma : Option (List User))
    (body : ReqBody) : LoginRes × Option (List User) :=
  if ¬ body.email.truthy ∨ ¬ body.password.truthy then
    (.missingFields, prisma)
  else
    match prisma with
    | none => (simLogin simSecret body, none)
    | some store =>
      let (res, store') := dbLogin secret store body
      (res, some store')

/-- `POST /auth/login` of `src/routes/auth.js` (lines 44–91): field
validation followed by the database branch (there is no simulation mode in
this variant). -/
def loginAuth (secret : String) (store : List User) (body : ReqBody) :
    LoginRes × List User :=
  if ¬ body.email.truthy ∨ ¬ body.password.truthy then
    (.missingFields, store)
  else
    dbLogin secret store body

/-- The database branch of `POST /auth/register`, shared (up to the JWT
secret) by `server.js` (lines 193–235) and `src/routes/auth.js` (lines
109–144): reject a duplicate email, hash the password with cost 12, insert
the row `{email, username: username || null, password: hash}` (with the
Prisma-generated id `newId`) and sign a token. -/
def dbRegister (secret : String) (store : List User) (newId : String)
    (body : ReqBody) : RegisterRes × List User :=
  match findUnique store body.email with
  | .error e => (.dbError e, store)
  | .ok (some _) => (.conflict, store)
  | .ok none =>
    match bcryptHashJS body.password with
    | .error e => (.dbError e, store)
    | .ok hashed =>
      match body.email with
      | .str e =>
        let user : User := ⟨newId, e, jsOrNull body.username, some hashed⟩
        (.created (jwtSign user.id (.str user.email) secret) (userJson user),
         store ++ [user])
      | _ => (.dbError "PrismaClientValidationError", store)

/-- `POST /auth/register` of `server.js` (lines 160–236): presence and
length validation, then either the simulation branch (lines 174–191: a 201
with a stub token and no persistence) or the database branch. -/
def registerServer (secret simSecret : String) (prisma : Option (List User))
    (newId : String) (body : ReqBody) : RegisterRes × Option (List User) :=
  if ¬ body.email.truthy ∨ ¬ body.password.truthy then
    (.missingFields, prisma)
  else if jsLengthLtSix body.password then
    (.shortPassword, prisma)
  else
    match prisma with
    | none =>
      (.simCreated (jwtSign "new-user-id" body.email simSecret)
        [("id", .str "new-user-id"), ("email", body.email),
         ("username", .str (jsOrDefault body.username "nuevo_usuario"))],
       none)
    | some store =>
      let (res, store') := dbRegister secret store newId body
      (res, some store')

/-- `POST /auth/register` of `src/routes/auth.js` (lines 93–150): presence
and length validation followed by the database branch. -/
def registerAuth (secret : String) (store : List User) (newId : String)
    (body : ReqBody) : RegisterRes × List User :=
  if ¬ body.email.truthy ∨ ¬ body.password.truthy then
    (.missingFields, store)
  else if jsLengthLtSix body.password then
    (.shortPassword, store)
  else
    dbRegister secret store newId body

/-- `POST /auth/recover` of `server.js` (lines 238–262): after the presence
check it always returns the confirmation payload; it never consults the
store. -/
def recoverServer (body : ReqBody) : RecoverRes :=
  if ¬ body.email.truthy then .missingEmail
  else .sent body.email

/-- `POST /auth/recover` of `src/routes/auth.js` (lines 154–185): after the
presence check it looks the user up and returns 404 when absent, the
confirmation payload when present. -/
def recoverAuth (store : List User) (body : ReqBody) : RecoverRes :=
  if ¬ body.email.truthy then .missingEmail
  else
    match findUnique store body.email with
    | .error e => .dbError e
    | .ok none => .notFound
    | .ok (some _) => .sent body.email

/-- A row of the `Destino` table (migration `part_000`): string primary key
`id`, unique `slug`, and the catalog attributes inserted by the seed script.
The JSON columns `gastos` and `tours` are carried as opaque strings and the
`DOUBLE` price as an integer number of currency units; neither is computed
on anywhere in the repository. -/
structure Destino where
  id : String
  slug : String
  nombre : String
  ubicacion : String
  tipo : String
  precio : Int
  duracion : String
  presupuesto : String
  imagen : String
  descripcion : String
  gastos : String
  tours : String
  deriving DecidableEq, Repr

/-- Modelled from the spec: an entry of the static seed dataset
`src/data/destinos.js`, which is not present in the sources; per the spec it
is a fixed static list of destination entries (name, location, type, price,
duration, budget tier, image reference, description, expense breakdown,
tour list), with `slug` possibly absent (the seed script falls back to the
id). -/
structure SeedEntry where
  id : String
  slug : Option String
  nombre : String
  ubicacion : String
  tipo : String
  precio : Int
  duracion : String
  presupuesto : String
  imagen : String
  descripcion : String
  gastos : String
  tours : String
  deriving DecidableEq, Repr

/-- The row built by `prisma.destino.create` in `prisma/seed.js` (lines
20–35): every field is copied and the slug defaults to the id
(`slug: d.slug || d.id`). -/
def toRow (d : SeedEntry) : Destino :=
  ⟨d.id, jsOrDefault d.slug d.id, d.nombre, d.ubicacion, d.tipo, d.precio,
   d.duracion, d.presupuesto, d.imagen, d.descripcion, d.gastos, d.tours⟩

/-- `prisma.destino.create` against the `Destino` table: the insert is
rejected when the primary key `id` or the unique index `Destino_slug_key`
is violated, and appends the row otherwise. -/
def destinoCreate (table : List Destino) (row : Destino) :
    Except String (List Destino) :=
  if table.any (fun r => r.id == row.id || r.slug == row.slug) then
    .error "Unique constraint failed"
  else
    .ok (table ++ [row])

/-- The `for (const d of destinos)` insertion loop of `prisma/seed.js`: rows
are inserted one by one; a constraint violation aborts the run. -/
def insertAll (table : List Destino) : List SeedEntry → Except String (List Destino)
  | [] => .ok table
  | d :: ds =>
    match destinoCreate table (toRow d) with
    | .error e => .error e
    | .ok t => insertAll t ds

/-- `main` of `prisma/seed.js` (lines 6–36) as a transformer of the
`Destino` table: an empty dataset returns early and leaves the table
untouched; otherwise `deleteMany` clears the table and the loop inserts
every seed entry. -/
def seedMain (destinos : List SeedEntry) (table : List Destino) :
    Except String (List Destino) :=
  if destinos.length = 0 then .ok table
  else insertAll [] destinos

/-! ## Helper lemmas -/

/-- The store component of the database login branch is always the input
store: every branch of the handler only reads. -/
lemma dbLogin_store_eq (secret : String) (store : List User) (body : ReqBody) :
    (dbLogin secret store body).2 = store := by
  unfold dbLogin
  split
  · rfl
  · rfl
  · split <;> rfl

/-- A user returned by `findUnique` is a row of the store. -/
lemma findUnique_ok_some {store : List User} {v : JVal} {u : User}
    (h : findUnique store v = .ok (some u)) : u ∈ store := by
  unfold findUnique at h
  split at h
  · injection h with h'
    exact List.mem_of_find?_eq_some h'
  · exact Except.noConfusion h

/-- Appending a row with a previously unused email: lookup finds the new
row. -/
lemma find?_append_fresh {store : List User} {u : User} {e : String}
    (hfresh : store.find? (fun v => v.email == e) = none) (he : u.email = e) :
    (store ++ [u]).find? (fun v => v.email == e) = some u := by
  rw [List.find?_append, hfresh]
  simp [List.find?, he]

/-- A password of length at least six is nonempty. -/
lemma ne_empty_of_six_le_length {p : String} (hp : 6 ≤ p.length) : p ≠ "" := by
  intro h
  subst h
  exact absurd hp (by decide)

/-- Register on a fresh string email with a string password: the database
branch creates the row and signs a token over the new id and the email. -/
lemma dbRegister_fresh (secret : String) (store : List User)
    (newId e p : String) (uname : Option String)
    (hfresh : store.find? (fun u => u.email == e) = none) :
    dbRegister secret store newId ⟨.str e, .str p, uname⟩ =
      (.created (jwtSign newId (.str e) secret)
        (userJson ⟨newId, e, jsOrNull uname, some (bcryptHash p)⟩),
       store ++ [⟨newId, e, jsOrNull uname, some (bcryptHash p)⟩]) := by
  simp [dbRegister, findUnique, hfresh, bcryptHashJS]

/-- Login against a store whose lookup yields a user holding the bcrypt
hash of the supplied password: success with a token over that user. -/
lemma dbLogin_match (secret : String) (store : List User) (e p : String)
    (uname : Option String) (u : User)
    (hfind : store.find? (fun v => v.email == e) = some u)
    (hpw : u.password = some (bcryptHash p)) :
    dbLogin secret store ⟨.str e, .str p, uname⟩ =
      (.success (jwtSign u.id (.str u.email) secret) (userJson u), store) := by
  simp [dbLogin, findUnique, hfind, bcryptCompareJS, hpw]

/-- The database register branch never produces the short-password
response: that validation lives in the wrapping handler. -/
lemma dbRegister_not_short (secret : String) (store : List User)
    (newId : String) (body : ReqBody) :
    (dbRegister secret store newId body).1 ≠ .shortPassword := by
  unfold dbRegister
  split
  · simp
  · simp
  · split
    · simp
    · split <;> simp

/-! ## Claim theorems -/

/-- C8: Login never modifies the user store: for every login request,
regardless of whether it succeeds or fails with a validation, not-found,
authentication or server error, the store after the operation (in both the
`server.js` handler, whatever the availability of the Prisma client, and
the `src/routes/auth.js` handler) equals the store before it. -/
theorem C8_login_readonly (secret simSecret : String)
    (prisma : Option (List User)) (store : List User) (body : ReqBody) :
    (loginServer secret simSecret prisma body).2 = prisma ∧
    (loginAuth secret store body).2 = store := by
  constructor
  · unfold loginServer
    split
    · rfl
    · cases prisma with
      | none => rfl
      | some s => simp [dbLogin_store_eq]
  · unfold loginAuth
    split
    · rfl
    · exact dbLogin_store_eq secret store body

/-- A store holding one user row created without a credential (`password`
column `NULL`, as the schema allows). -/
def nullHashStore : List User :=
  [⟨"u1", "a@b.com", none, none⟩]

/-- C2 counterexample: with a stored user whose password hash is null, a
login with the matching email and any password makes `bcrypt.compare`
reject, the catch block answers 500 — not the 400 authentication error the
claim requires. -/
theorem C2_null_hash_gives_500 :
    (loginServer "fallback-secret" "test-secret" (some nullHashStore)
        ⟨.str "a@b.com", .str "anything", none⟩).1 =
      .dbError "Illegal arguments" ∧
    loginStatus (loginServer "fallback-secret" "test-secret" (some nullHashStore)
        ⟨.str "a@b.com", .str "anything", none⟩).1 = 500 ∧
    loginStatus (loginServer "fallback-secret" "test-secret" (some nullHashStore)
        ⟨.str "a@b.com", .str "anything", none⟩).1 ≠ 400 := by
  refine ⟨rfl, rfl, by decide⟩

/-- C2 (amended): for every login request whose string email matches a
stored user record holding a non-null string password hash that the
supplied string password does not match, login fails with the 400
authentication error and never a server error; records with a null stored
hash instead make `bcrypt.compare` reject and yield a 500. -/
theorem C2_wrong_password_auth_error (secret simSecret : String)
    (store : List User) (e p h : String) (uname : Option String) (u : User)
    (he : e ≠ "") (hp : p ≠ "")
    (hfind : store.find? (fun v => v.email == e) = some u)
    (hhash : u.password = some h) (hne : h ≠ bcryptHash p) :
    (loginServer secret simSecret (some store) ⟨.str e, .str p, uname⟩).1 =
      .wrongPassword ∧
    loginStatus (loginServer secret simSecret (some store)
      ⟨.str e, .str p, uname⟩).1 = 400 := by
  have hbeq : (h == bcryptHash p) = false := by
    simp [hne]
  have hlogin : (loginServer secret simSecret (some store)
      ⟨.str e, .str p, uname⟩).1 = .wrongPassword := by
    simp [loginServer, JVal.truthy, he, hp, dbLogin, findUnique, hfind,
      bcryptCompareJS, hhash, hbeq]
  exact ⟨hlogin, by rw [hlogin]; rfl⟩

/-- A store holding one registered user: `a@b.com` with the bcrypt hash of
`secret1`. -/
def oneUserStore : List User :=
  [⟨"u1", "a@b.com", some "alice", some (bcryptHash "secret1")⟩]

/-- Witness for C2 (amended), at the stored user `a@b.com` and the
non-matching password `wrong`. -/
theorem C2_wrong_password_auth_error_witness :
    (loginServer "s" "t" (some oneUserStore)
        ⟨.str "a@b.com", .str "wrong", none⟩).1 = .wrongPassword ∧
    loginStatus (loginServer "s" "t" (some oneUserStore)
        ⟨.str "a@b.com", .str "wrong", none⟩).1 = 400 :=
  C2_wrong_password_auth_error "s" "t" oneUserStore "a@b.com" "wrong"
    (bcryptHash "secret1") none ⟨"u1", "a@b.com", some "alice", some (bcryptHash "secret1")⟩
    (by decide) (by decide) (by decide) rfl (by decide)

/-- C4: the two recover implementations are not equivalent: on a request
whose email matches no stored user, the `src/routes/auth.js` variant fails
with 404 Not Found while the `server.js` variant returns the success
confirmation payload (200) without consulting the store. -/
theorem C4_recover_variants_differ (store : List User) (e : String)
    (pw : JVal) (uname : Option String)
    (he : e ≠ "")
    (habsent : store.find? (fun u => u.email == e) = none) :
    recoverAuth store ⟨.str e, pw, uname⟩ = .notFound ∧
    recoverStatus (recoverAuth store ⟨.str e, pw, uname⟩) = 404 ∧
    recoverServer ⟨.str e, pw, uname⟩ = .sent (.str e) ∧
    recoverStatus (recoverServer ⟨.str e, pw, uname⟩) = 200 ∧
    recoverAuth store ⟨.str e, pw, uname⟩ ≠ recoverServer ⟨.str e, pw, uname⟩ := by
  have hauth : recoverAuth store ⟨.str e, pw, uname⟩ = .notFound := by
    simp [recoverAuth, JVal.truthy, he, findUnique, habsent]
  have hserver : recoverServer ⟨.str e, pw, uname⟩ = .sent (.str e) := by
    simp [recoverServer, JVal.truthy, he]
  refine ⟨hauth, by rw [hauth]; rfl, hserver, by rw [hserver]; rfl, ?_⟩
  rw [hauth, hserver]
  simp

/-- Witness for C4, at the empty store and the email `x@y.com`. -/
theorem C4_recover_variants_differ_witness :
    recoverAuth [] ⟨.str "x@y.com", .undefined, none⟩ = .notFound ∧
    recoverStatus (recoverAuth [] ⟨.str "x@y.com", .undefined, none⟩) = 404 ∧
    recoverServer ⟨.str "x@y.com", .undefined, none⟩ = .sent (.str "x@y.com") ∧
    recoverStatus (recoverServer ⟨.str "x@y.com", .undefined, none⟩) = 200 ∧
    recoverAuth [] ⟨.str "x@y.com", .undefined, none⟩ ≠
      recoverServer ⟨.str "x@y.com", .undefined, none⟩ :=
  C4_recover_variants_differ [] "x@y.com" .undefined none (by decide) rfl

/-- C5: with both email and password present, a string password of length 5
is rejected with the 400 length validation error, while one of length 6
passes the length validation (the result is never the short-password
response), in both register implementations. -/
lemma truthy_str_eq_true {s : String} (h : s ≠ "") :
    (JVal.str s).truthy = true := by
  simp [JVal.truthy, h]

theorem C5_password_length_boundary (secret simSecret : String)
    (prisma : Option (List User)) (store : List User) (newId : String)
    (em : JVal) (p₅ p₆ : String) (un : Option String)
    (hem : em.truthy = true) (h5 : p₅.length = 5) (h6 : p₆.length = 6) :
    ((registerServer secret simSecret prisma newId ⟨em, .str p₅, un⟩).1 =
        .shortPassword ∧
      registerStatus (registerServer secret simSecret prisma newId
        ⟨em, .str p₅, un⟩).1 = 400 ∧
      (registerAuth secret store newId ⟨em, .str p₅, un⟩).1 = .shortPassword) ∧
    ((registerServer secret simSecret prisma newId ⟨em, .str p₆, un⟩).1 ≠
        .shortPassword ∧
      (registerAuth secret store newId ⟨em, .str p₆, un⟩).1 ≠ .shortPassword) := by
  have hp₅ : p₅ ≠ "" := by
    intro h; subst h; exact absurd h5 (by decide)
  have hp₆ : p₆ ≠ "" := by
    intro h; subst h; exact absurd h6 (by decide)
  have ht5 : (JVal.str p₅).truthy = true := truthy_str_eq_true hp₅
  have ht6 : (JVal.str p₆).truthy = true := truthy_str_eq_true hp₆
  have hshort : jsLengthLtSix (.str p₅) = true := by
    simp [jsLengthLtSix, h5]
  have hlong : jsLengthLtSix (.str p₆) = false := by
    simp [jsLengthLtSix, h6]
  refine ⟨⟨?_, ?_, ?_⟩, ?_, ?_⟩
  · simp [registerServer, hem, ht5, hshort]
  · simp [registerServer, registerStatus, hem, ht5, hshort]
  · simp [registerAuth, hem, ht5, hshort]
  · simp only [registerServer, hem, ht6, hlong]
    rw [if_neg (by simp [hem, ht6]), if_neg (by simp [hlong])]
    cases prisma with
    | none => simp
    | some s =>
      have hns := dbRegister_not_short secret s newId ⟨em, .str p₆, un⟩
      simpa using hns
  · simp only [registerAuth]
    rw [if_neg (by simp [hem, ht6]), if_neg (by simp [hlong])]
    exact dbRegister_not_short secret store newId ⟨em, .str p₆, un⟩

/-- Witness for C5, at the passwords `12345` (length 5) and `123456`
(length 6) on the empty store. -/
theorem C5_password_length_boundary_witness :
    (((registerServer "s" "t" (some []) "n1"
          ⟨.str "a@b.com", .str "12345", none⟩).1 = .shortPassword ∧
        registerStatus (registerServer "s" "t" (some []) "n1"
          ⟨.str "a@b.com", .str "12345", none⟩).1 = 400 ∧
        (registerAuth "s" [] "n1" ⟨.str "a@b.com", .str "12345", none⟩).1 =
          .shortPassword) ∧
      ((registerServer "s" "t" (some []) "n1"
          ⟨.str "a@b.com", .str "123456", none⟩).1 ≠ .shortPassword ∧
        (registerAuth "s" [] "n1" ⟨.str "a@b.com", .str "123456", none⟩).1 ≠
          .shortPassword)) :=
  C5_password_length_boundary "s" "t" (some []) [] "n1" (.str "a@b.com")
    "12345" "123456" none (by decide) (by decide) (by decide)

/-- C10: the length validation only rejects string passwords: a
registration whose password is the JSON number `123456` is not rejected by
the `password.length < 6` check (`.length` of a number is `undefined` and
`undefined < 6` is `false`), and control reaches the bcrypt hashing step,
whose rejection of the non-string argument the catch block then reports as
a 500. -/
theorem C10_numeric_password_reaches_hashing (secret simSecret : String) :
    jsLengthLtSix (.num 123456) = false ∧
    bcryptHashJS (.num 123456) = .error "Illegal arguments" ∧
    (registerServer secret simSecret (some []) "n1"
        ⟨.str "a@b.com", .num 123456, none⟩).1 ≠ .shortPassword ∧
    (registerServer secret simSecret (some []) "n1"
        ⟨.str "a@b.com", .num 123456, none⟩).1 = .dbError "Illegal arguments" ∧
    (registerAuth secret [] "n1" ⟨.str "a@b.com", .num 123456, none⟩).1 =
      .dbError "Illegal arguments" := by
  refine ⟨rfl, rfl, ?_, rfl, rfl⟩
  intro h
  exact RegisterRes.noConfusion h

/-- C1: registering a string password of length at least 6 under an email
not present in the user store succeeds (201), and a subsequent login with
the same email and password succeeds, answering a signed token whose
payload decodes to that same email, together with the same public user
view. -/
theorem C1_register_then_login_roundtrip (secret simSecret : String)
    (store : List User) (newId e p : String) (un un' : Option String)
    (he : e ≠ "") (hp : 6 ≤ p.length)
    (hfresh : store.find? (fun u => u.email == e) = none) :
    ∃ tok uj store₁,
      registerServer secret simSecret (some store) newId ⟨.str e, .str p, un⟩ =
        (.created tok uj, some store₁) ∧
      registerStatus (.created tok uj) = 201 ∧
      ∃ tok',
        (loginServer secret simSecret (some store₁) ⟨.str e, .str p, un'⟩).1 =
          .success tok' uj ∧
        jwtDecodeEmail tok' = .str e := by
  have hpne : p ≠ "" := ne_empty_of_six_le_length hp
  have hte : (JVal.str e).truthy = true := truthy_str_eq_true he
  have htp : (JVal.str p).truthy = true := truthy_str_eq_true hpne
  have hlong : jsLengthLtSix (.str p) = false := by
    simp [jsLengthLtSix]
    omega
  set user : User := ⟨newId, e, jsOrNull un, some (bcryptHash p)⟩ with huser
  refine ⟨jwtSign newId (.str e) secret, userJson user, store ++ [user],
    ?_, rfl, jwtSign user.id (.str user.email) secret, ?_, rfl⟩
  · simp only [registerServer]
    rw [if_neg (by simp [hte, htp]), if_neg (by simp [hlong])]
    simp [dbRegister_fresh secret store newId e p un hfresh, huser]
  · have hfind₁ : (store ++ [user]).find? (fun v => v.email == e) = some user :=
      find?_append_fresh hfresh rfl
    simp only [loginServer]
    rw [if_neg (by simp [hte, htp])]
    simp [dbLogin_match secret (store ++ [user]) e p un' user hfind₁ rfl]

/-- Witness for C1, registering `a@b.com` / `secret1` on the empty store
and logging back in. -/
theorem C1_register_then_login_roundtrip_witness :
    ∃ tok uj store₁,
      registerServer "s" "t" (some []) "n1" ⟨.str "a@b.com", .str "secret1", none⟩ =
        (.created tok uj, some store₁) ∧
      registerStatus (.created tok uj) = 201 ∧
      ∃ tok',
        (loginServer "s" "t" (some store₁) ⟨.str "a@b.com", .str "secret1", none⟩).1 =
          .success tok' uj ∧
        jwtDecodeEmail tok' = .str "a@b.com" :=
  C1_register_then_login_roundtrip "s" "t" [] "n1" "a@b.com" "secret1"
    none none (by decide) (by decide) rfl

/-- C3: two registrations under the same email, both passing the field and
length validations, with the email initially unused: the first succeeds,
the second fails with the 400 conflict response, leaves the store
untouched, and the store afterwards holds exactly one row with that
email. -/
theorem C3_duplicate_registration_conflict (secret simSecret : String)
    (store : List User) (newId₁ newId₂ e p₁ p₂ : String) (un₁ un₂ : Option String)
    (he : e ≠ "") (hp₁ : 6 ≤ p₁.length) (hp₂ : 6 ≤ p₂.length)
    (hfresh : store.find? (fun u => u.email == e) = none) :
    ∃ tok uj store₁,
      registerServer secret simSecret (some store) newId₁ ⟨.str e, .str p₁, un₁⟩ =
        (.created tok uj, some store₁) ∧
      registerServer secret simSecret (some store₁) newId₂ ⟨.str e, .str p₂, un₂⟩ =
        (.conflict, some store₁) ∧
      registerStatus .conflict = 400 ∧
      (store₁.filter (fun u => u.email == e)).length = 1 := by
  have hte : (JVal.str e).truthy = true := truthy_str_eq_true he
  have htp₁ : (JVal.str p₁).truthy = true :=
    truthy_str_eq_true (ne_empty_of_six_le_length hp₁)
  have htp₂ : (JVal.str p₂).truthy = true :=
    truthy_str_eq_true (ne_empty_of_six_le_length hp₂)
  have hlong₁ : jsLengthLtSix (.str p₁) = false := by
    simp [jsLengthLtSix]; omega
  have hlong₂ : jsLengthLtSix (.str p₂) = false := by
    simp [jsLengthLtSix]; omega
  set user : User := ⟨newId₁, e, jsOrNull un₁, some (bcryptHash p₁)⟩ with huser
  have hfind₁ : (store ++ [user]).find? (fun v => v.email == e) = some user :=
    find?_append_fresh hfresh rfl
  refine ⟨jwtSign newId₁ (.str e) secret, userJson user, store ++ [user],
    ?_, ?_, rfl, ?_⟩
  · simp only [registerServer]
    rw [if_neg (by simp [hte, htp₁]), if_neg (by simp [hlong₁])]
    simp [dbRegister_fresh secret store newId₁ e p₁ un₁ hfresh, huser]
  · simp only [registerServer]
    rw [if_neg (by simp [hte, htp₂]), if_neg (by simp [hlong₂])]
    simp [dbRegister, findUnique, hfind₁]
  · rw [List.filter_append]
    have hnil : store.filter (fun u => u.email == e) = [] :=
      List.filter_eq_nil_iff.mpr (List.find?_eq_none.mp hfresh)
    rw [hnil]
    simp

/-- Witness for C3, registering `a@b.com` twice on the empty store. -/
theorem C3_duplicate_registration_conflict_witness :
    ∃ tok uj store₁,
      registerServer "s" "t" (some []) "n1" ⟨.str "a@b.com", .str "secret1", none⟩ =
        (.created tok uj, some store₁) ∧
      registerServer "s" "t" (some store₁) "n2" ⟨.str "a@b.com", .str "secret2", none⟩ =
        (.conflict, some store₁) ∧
      registerStatus .conflict = 400 ∧
      (store₁.filter (fun u => u.email == "a@b.com")).length = 1 :=
  C3_duplicate_registration_conflict "s" "t" [] "n1" "n2" "a@b.com"
    "secret1" "secret2" none none (by decide) (by decide) (by decide) rfl

/-- C7: every successful database login or registration answers a `user`
object holding exactly the keys `id`, `email` and `username`, and the
object is unchanged under any value of the stored password hash — the hash
is never part of the response. -/
theorem C7_public_user_view (secret : String) (store : List User)
    (newId : String) (body : ReqBody) (tok : Token) (uj : List (String × JVal)) :
    ((dbLogin secret store body).1 = .success tok uj →
      uj.map Prod.fst = ["id", "email", "username"] ∧
      ∃ u ∈ store, uj = userJson u ∧
        ∀ pw, userJson ⟨u.id, u.email, u.username, pw⟩ = uj) ∧
    ((dbRegister secret store newId body).1 = .created tok uj →
      uj.map Prod.fst = ["id", "email", "username"] ∧
      ∃ u, uj = userJson u ∧
        ∀ pw, userJson ⟨u.id, u.email, u.username, pw⟩ = uj) := by
  constructor
  · intro hs
    unfold dbLogin at hs
    split at hs
    · exact absurd hs (by simp)
    · exact absurd hs (by simp)
    · rename_i u heq
      split at hs
      · exact absurd hs (by simp)
      · exact absurd hs (by simp)
      · injection hs with htok huj
        subst huj
        exact ⟨rfl, u, findUnique_ok_some heq, rfl, fun pw => rfl⟩
  · intro hs
    unfold dbRegister at hs
    split at hs
    · exact absurd hs (by simp)
    · exact absurd hs (by simp)
    · split at hs
      · exact absurd hs (by simp)
      · rename_i hashed hhash
        split at hs
        · rename_i e hemail
          injection hs with htok huj
          subst huj
          exact ⟨rfl, ⟨newId, e, jsOrNull body.username, some hashed⟩, rfl,
            fun pw => rfl⟩
        · exact absurd hs (by simp)

/-- Witness for C7, at a successful login of the stored user `a@b.com`. -/
theorem C7_public_user_view_witness :
    (userJson ⟨"u1", "a@b.com", some "alice", some (bcryptHash "secret1")⟩).map
        Prod.fst = ["id", "email", "username"] ∧
    ∃ u ∈ oneUserStore,
      userJson ⟨"u1", "a@b.com", some "alice", some (bcryptHash "secret1")⟩ =
        userJson u ∧
      ∀ pw, userJson ⟨u.id, u.email, u.username, pw⟩ =
        userJson ⟨"u1", "a@b.com", some "alice", some (bcryptHash "secret1")⟩ :=
  (C7_public_user_view "s" oneUserStore "n1" ⟨.str "a@b.com", .str "secret1", none⟩
    (jwtSign "u1" (.str "a@b.com") "s")
    (userJson ⟨"u1", "a@b.com", some "alice", some (bcryptHash "secret1")⟩)).1
    (by decide)

/-- C9: with the Prisma client unavailable, `server.js` login succeeds
exactly on the hardcoded pair `test@test.com` / `123456` (any other
email/password pair gets a 400), and a validation-passing registration
answers 201 with a signed token and persists nothing. -/
theorem C9_simulation_mode (secret simSecret : String) :
    ((loginServer secret simSecret none
        ⟨.str "test@test.com", .str "123456", none⟩).1 =
      .simSuccess (jwtSign "test-user-id" (.str "test@test.com") simSecret)
        [("id", .str "test-user-id"), ("email", .str "test@test.com"),
         ("username", .str "usuario_prueba")]) ∧
    (∀ body : ReqBody,
      ¬ (body.email = .str "test@test.com" ∧ body.password = .str "123456") →
      loginStatus (loginServer secret simSecret none body).1 = 400) ∧
    (∀ (newId : String) (body : ReqBody),
      body.email.truthy = true → body.password.truthy = true →
      jsLengthLtSix body.password = false →
      registerServer secret simSecret none newId body =
        (.simCreated (jwtSign "new-user-id" body.email simSecret)
          [("id", .str "new-user-id"), ("email", body.email),
           ("username", .str (jsOrDefault body.username "nuevo_usuario"))],
         none)) := by
  refine ⟨rfl, ?_, ?_⟩
  · intro body hne
    unfold loginServer
    split
    · rfl
    · unfold simLogin
      rw [if_neg hne]
      rfl
  · intro newId body h1 h2 h3
    unfold registerServer
    rw [if_neg (by simp [h1, h2]), if_neg (by simp [h3])]

/-- Witness for C9, at the rejected pair `x@y.com` / `123456` and a
validation-passing simulated registration. -/
theorem C9_simulation_mode_witness :
    loginStatus (loginServer "s" "t" none
        ⟨.str "x@y.com", .str "123456", none⟩).1 = 400 ∧
    registerServer "s" "t" none "n1" ⟨.str "x@y.com", .str "123456", none⟩ =
      (.simCreated (jwtSign "new-user-id" (.str "x@y.com") "t")
        [("id", .str "new-user-id"), ("email", .str "x@y.com"),
         ("username", .str "nuevo_usuario")],
       none) :=
  ⟨(C9_simulation_mode "s" "t").2.1 ⟨.str "x@y.com", .str "123456", none⟩
      (by decide),
    (C9_simulation_mode "s" "t").2.2 "n1" ⟨.str "x@y.com", .str "123456", none⟩
      (by decide) (by decide) (by decide)⟩

/-- Inserting seed rows one by one into an accumulator table succeeds and
appends exactly one row per entry, provided no inserted row collides with
the accumulator or with another inserted row on the primary key or the
unique slug. -/
lemma insertAll_ok (ds : List SeedEntry) : ∀ acc : List Destino,
    (∀ d ∈ ds, ∀ a ∈ acc, a.id ≠ (toRow d).id ∧ a.slug ≠ (toRow d).slug) →
    (ds.map toRow).Pairwise (fun r s => r.id ≠ s.id ∧ r.slug ≠ s.slug) →
    insertAll acc ds = .ok (acc ++ ds.map toRow) := by
  induction ds with
  | nil =>
    intro acc _ _
    simp [insertAll]
  | cons d ds ih =>
    intro acc hacc hpw
    rw [List.map_cons, List.pairwise_cons] at hpw
    obtain ⟨hhead, htail⟩ := hpw
    have hcr : destinoCreate acc (toRow d) = .ok (acc ++ [toRow d]) := by
      have hnone : (acc.any fun r =>
          r.id == (toRow d).id || r.slug == (toRow d).slug) = false := by
        rw [List.any_eq_false]
        intro a ha
        obtain ⟨h1, h2⟩ := hacc d (List.mem_cons_self d ds) a ha
        simp [beq_iff_eq, h1, h2]
      simp [destinoCreate, hnone]
    have hih := ih (acc ++ [toRow d]) ?_ htail
    · rw [List.map_cons]
      simp only [insertAll, hcr]
      rw [hih]
      simp
    · intro d' hd' a ha
      rcases List.mem_append.mp ha with h | h
      · exact hacc d' (List.mem_cons_of_mem d hd') a h
      · have haeq : a = toRow d := by simpa using h
        subst haeq
        exact hhead (toRow d') (List.mem_map_of_mem toRow hd')

/-- C6: with a nonempty seed dataset whose generated rows have pairwise
distinct ids and slugs, one seed run replaces the table — whatever its
prior contents — with exactly one row per seed entry, and a second run in
succession leaves the same table: seeding is an idempotent replace, not an
append. -/
theorem C6_seed_idempotent (ds : List SeedEntry) (t : List Destino)
    (hne : ds ≠ [])
    (hdistinct : (ds.map toRow).Pairwise
      (fun r s => r.id ≠ s.id ∧ r.slug ≠ s.slug)) :
    seedMain ds t = .ok (ds.map toRow) ∧
    (seedMain ds t).bind (fun t₁ => seedMain ds t₁) = .ok (ds.map toRow) ∧
    (ds.map toRow).length = ds.length := by
  have hlen : ¬ ds.length = 0 := fun h => hne (List.length_eq_zero.mp h)
  have hrun : ∀ t' : List Destino, seedMain ds t' = .ok (ds.map toRow) := by
    intro t'
    unfold seedMain
    rw [if_neg hlen]
    have hins := insertAll_ok ds []
      (fun d _ a ha => absurd ha (List.not_mem_nil a)) hdistinct
    simpa using hins
  refine ⟨hrun t, ?_, List.length_map ds toRow⟩
  rw [hrun t]
  exact hrun (ds.map toRow)

/-- A concrete seed entry: a Cusco destination with an explicit slug. -/
def entryCusco : SeedEntry :=
  ⟨"d1", some "machu-picchu", "Machu Picchu", "Cusco", "cultural", 250,
   "2 dias", "medio", "machu.jpg", "ciudadela inca", "gastos-json", "tours-json"⟩

/-- A concrete seed entry: a Puno destination whose slug falls back to the
id. -/
def entryPuno : SeedEntry :=
  ⟨"d2", none, "Lago Titicaca", "Puno", "naturaleza", 180,
   "1 dia", "bajo", "titicaca.jpg", "lago navegable", "gastos-json", "tours-json"⟩

/-- Witness for C6, seeding the two-entry dataset over a table already
holding one of the rows. -/
theorem C6_seed_idempotent_witness :
    seedMain [entryCusco, entryPuno] [toRow entryPuno] =
      .ok ([entryCusco, entryPuno].map toRow) ∧
    (seedMain [entryCusco, entryPuno] [toRow entryPuno]).bind
      (fun t₁ => seedMain [entryCusco, entryPuno] t₁) =
      .ok ([entryCusco, entryPuno].map toRow) ∧
    ([entryCusco, entryPuno].map toRow).length = [entryCusco, entryPuno].length :=
  C6_seed_idempotent [entryCusco, entryPuno] [toRow entryPuno]
    (by decide) (by decide)
